import Mathlib

/-!
Verification of the DenoChart bar-chart renderer (`src/graph/GraphInstance.ts`).

The embedding models JavaScript numbers as exact rationals (`ℚ`), JavaScript
`undefined` as `Option.none`, and the `string | null | undefined` union of
`valueLabel` as `Option (Option String)` (`none` = absent/undefined,
`some none` = null, `some (some s)` = the string `s`).  Canvas painting calls
are recorded as a list of `CanvasOp` values in program order; the canvas
dimensions `HEIGHT`/`WIDTH`, which the source reads from the process-wide
`CanvasInstance`, are passed to the drawing functions explicitly.
-/

set_option allowUnsafeReducibility true
attribute [local semireducible] Rat.mul Rat.inv Rat.add Rat.sub Rat.neg

namespace DenoChart

/-- One decimal digit as a character (`0 ≤ d ≤ 9` at every use site). -/
def digitChar (d : ℕ) : Char := Char.ofNat (48 + d)

/-- The `p` base-10 digits of `m` (most significant first), for `m < 10 ^ p`.
Models the zero-padded fractional digit block produced by `toFixed`. -/
def fracDigits : ℕ → ℕ → List Char
  | 0, _ => []
  | p + 1, m => digitChar (m / 10 ^ p) :: fracDigits p (m % 10 ^ p)

/-- Models JavaScript `Number.prototype.toFixed` over exact rationals: the
magnitude is rounded half away from zero to `p` decimal places; `p = 0`
renders no decimal point, otherwise exactly `p` digits follow the point. -/
def toFixed (q : ℚ) (p : ℕ) : String :=
  let mag : ℚ := if q < 0 then -q else q
  let scaled : ℕ := ((mag * 10 ^ p + 1 / 2).floor).toNat
  let sign : String := if q < 0 then "-" else ""
  if p = 0 then sign ++ Nat.repr scaled
  else sign ++ Nat.repr (scaled / 10 ^ p) ++ "." ++ String.mk (fracDigits p (scaled % 10 ^ p))

/-- Models the recurring source pattern `x % 1 !== 0 ? x.toFixed(p) : x`
followed by `.toString()`: an integral number is rendered with no decimal
separator, a non-integral one via `toFixed` (source lines 224 and 301). -/
def numToLabel (q : ℚ) (p : ℕ) : String :=
  if q.den = 1 then Int.repr q.num else toFixed q p

/-- Longest prefix of decimal digits (as digit values) plus the rest. -/
def takeDigits : List Char → List ℕ × List Char
  | [] => ([], [])
  | c :: cs =>
    if c.isDigit then
      let r := takeDigits cs
      ((c.toNat - 48) :: r.1, r.2)
    else ([], c :: cs)

/-- Value of a digit list, most significant first. -/
def digitsVal (ds : List ℕ) : ℕ := ds.foldl (fun a d => 10 * a + d) 0

/-- Models JavaScript `Number.parseFloat` restricted to plain decimal
literals: an optional sign, integer digits, an optional fractional part,
with trailing garbage ignored; `none` models `NaN`.  Exponent and
`Infinity` forms (which no claim exercises) are not modelled. -/
def jsParseFloat (s : String) : Option ℚ :=
  let cs := s.toList
  let signed : Bool × List Char :=
    match cs with
    | '-' :: rest => (true, rest)
    | '+' :: rest => (false, rest)
    | _ => (false, cs)
  let ipRest := takeDigits signed.2
  let fp : List ℕ :=
    match ipRest.2 with
    | '.' :: rest => (takeDigits rest).1
    | _ => []
  if ipRest.1.isEmpty && fp.isEmpty then none
  else
    let mag : ℚ := (digitsVal ipRest.1 : ℚ) + (digitsVal fp : ℚ) / (10 ^ fp.length : ℚ)
    some (if signed.1 then -mag else mag)

namespace Utils

/-- Modelled from the spec: `max(values)` from `utils/` (not under `src/`)
"computes the maximum of a numeric collection" (§2); for the empty
collection the spec calls the result implementation-defined (§4.2) and
suggests 0 or a sentinel — we take 0. -/
def max : List ℚ → ℚ
  | [] => 0
  | x :: xs => xs.foldl Max.max x

/-- Modelled from the spec: `normalize(value, lowerBound, upperBound)` from
`utils/` (not under `src/`) performs "linear normalization of a value into a
sub-range" (§2); §4.2 pins `normalize(v, 0, hi) = v / hi` through both the
bar-height and y-tick formulas. -/
def normalize (value lowerBound upperBound : ℚ) : ℚ :=
  (value - lowerBound) / (upperBound - lowerBound)

end Utils

/-- `interface RGBA` (source lines 4–9). -/
structure RGBA where
  r : ℚ
  g : ℚ
  b : ℚ
  a : ℚ
deriving DecidableEq

/-- `interface GraphOptions` (source lines 11–53); segment counts are the
loop bounds and are modelled as naturals. -/
structure GraphOptions where
  width : ℚ
  height : ℚ
  backgroundColor : RGBA
  titleText : String
  xAxisText : String
  yAxisText : String
  yMax : ℚ
  yPadding : ℚ
  xPadding : ℚ
  bar_width : ℚ
  bar_spacing : ℚ
  graphSegments_Y : ℕ
  graphSegments_X : ℕ
  titleColor : String
  xTextColor : String
  yTextColor : String
  yTextSize : ℚ
  xSegmentColor : String
  ySegmentColor : String
  graphValuePrecision : ℕ
  verbose : Bool
deriving DecidableEq

/-- The constructor argument `config?: Partial<GraphOptions>`: every field
optional, `none` modelling an absent (undefined) field. -/
structure GraphConfig where
  width : Option ℚ := none
  height : Option ℚ := none
  backgroundColor : Option RGBA := none
  titleText : Option String := none
  xAxisText : Option String := none
  yAxisText : Option String := none
  yMax : Option ℚ := none
  yPadding : Option ℚ := none
  xPadding : Option ℚ := none
  bar_width : Option ℚ := none
  bar_spacing : Option ℚ := none
  graphSegments_Y : Option ℕ := none
  graphSegments_X : Option ℕ := none
  titleColor : Option String := none
  xTextColor : Option String := none
  yTextColor : Option String := none
  yTextSize : Option ℚ := none
  xSegmentColor : Option String := none
  ySegmentColor : Option String := none
  graphValuePrecision : Option ℕ := none
  verbose : Option Bool := none
deriving DecidableEq

/-- `interface BarEntry` (source lines 55–61); `valueLabel`: `none` =
undefined, `some none` = null, `some (some s)` = the string `s`. -/
structure BarEntry where
  val : ℚ
  label : Option String
  color : String
  valueLabel : Option (Option String)
deriving DecidableEq

/-- Resolution of the partial configuration against defaults, mirroring the
constructor's `(config && config.f) ?? default` per field
(source lines 84–120). -/
def resolveOptions (config : Option GraphConfig) : GraphOptions where
  width := (config.bind GraphConfig.width).getD 720
  height := (config.bind GraphConfig.height).getD 480
  backgroundColor := (config.bind GraphConfig.backgroundColor).getD ⟨50, 50, 50, 1 / 2⟩
  titleText := (config.bind GraphConfig.titleText).getD "title"
  xAxisText := (config.bind GraphConfig.xAxisText).getD "X-Axis"
  yAxisText := (config.bind GraphConfig.yAxisText).getD "Y-Axis"
  yMax := (config.bind GraphConfig.yMax).getD (-1)
  yPadding := (config.bind GraphConfig.yPadding).getD 0
  xPadding := (config.bind GraphConfig.xPadding).getD 0
  bar_width := (config.bind GraphConfig.bar_width).getD 10
  bar_spacing := (config.bind GraphConfig.bar_spacing).getD 5
  graphSegments_Y := (config.bind GraphConfig.graphSegments_Y).getD 10
  graphSegments_X := (config.bind GraphConfig.graphSegments_X).getD 10
  titleColor := (config.bind GraphConfig.titleColor).getD "rgb(255,255,255)"
  xTextColor := (config.bind GraphConfig.xTextColor).getD "rgb(255,255,255)"
  yTextColor := (config.bind GraphConfig.yTextColor).getD "rgb(255,255,255)"
  yTextSize := (config.bind GraphConfig.yTextSize).getD 10
  xSegmentColor := (config.bind GraphConfig.xSegmentColor).getD "rgb(255,255,255)"
  ySegmentColor := (config.bind GraphConfig.ySegmentColor).getD "rgb(255,255,255)"
  graphValuePrecision := (config.bind GraphConfig.graphValuePrecision).getD 2
  verbose := (config.bind GraphConfig.verbose).getD false

/-- The mutable state of a `Graph` instance: resolved options, the offsets
and padding set up by the constructor (source lines 64–68 and 122–126), and
the entry store. -/
structure GraphState where
  options : GraphOptions
  x_offset : ℚ
  y_offset : ℚ
  x_padding : ℚ
  y_padding : ℚ
  entries : List BarEntry
deriving DecidableEq

/-- The `Graph` constructor (source lines 79–137): resolves options and adds
the configured padding to the base offsets (`_x_padding = 50 + xPadding`,
the other three bases are 30). -/
def mkGraph (config : Option GraphConfig) : GraphState :=
  let o := resolveOptions config
  { options := o
    x_offset := 30 + o.xPadding
    y_offset := 30 + o.yPadding
    x_padding := 50 + o.xPadding
    y_padding := 30 + o.yPadding
    entries := [] }

/-- `add(entry)` (source lines 143–145): appends to the entry store. -/
def add (g : GraphState) (entry : BarEntry) : GraphState :=
  { g with entries := g.entries ++ [entry] }

/-- Placeholder entry for the in-bounds list accesses of the bar loop
(`this._entries[i]` with `i < this._entries.length`). -/
def anyEntry : BarEntry := ⟨0, none, "", none⟩

/-- One recorded drawing-surface call.  `fillRect` and `fillTextOp` carry the
fill style in force when the source issues them; `lineSeg` records one
`beginPath`/`lineTo`/`lineTo`/`stroke` block; `arcOp` one dot;
`textWithFont` a `drawTextWithFont` call; `backgroundOp` the background fill. -/
inductive CanvasOp where
  | backgroundOp (r g b a : ℚ)
  | fillRect (x y w h : ℚ) (color : String)
  | fillTextOp (text : String) (x y : ℚ) (color : String)
  | textWithFont (text : String) (x y : ℚ) (font : String)
  | arcOp (x y radius : ℚ)
  | lineSeg (x1 y1 x2 y2 : ℚ)
deriving DecidableEq

/-- `_draw_graph_outline` (source lines 150–190): title, axis captions and
the two axis lines, in program order.  Empty strings are falsy in the
source's `if (text)` guards. -/
def _draw_graph_outline (g : GraphState) (H W : ℚ) : List CanvasOp :=
  (if g.options.titleText ≠ "" then
    [CanvasOp.textWithFont g.options.titleText (W / 2 - 30) g.y_offset "12pt Cochin"]
   else []) ++
  (if g.options.xAxisText ≠ "" then
    [CanvasOp.fillTextOp g.options.xAxisText (W / 2 - 10) (H - g.y_offset / 2 + 10)
      g.options.xTextColor]
   else []) ++
  [CanvasOp.lineSeg g.x_padding (H - g.y_padding) g.x_padding g.y_padding] ++
  (if g.options.yAxisText ≠ "" then
    [CanvasOp.fillTextOp g.options.yAxisText (g.x_offset / 2 - 8) (H / 2)
      g.options.yTextColor]
   else []) ++
  [CanvasOp.lineSeg g.x_padding (H - g.y_padding) (W - g.x_padding) (H - g.y_padding)]

/-- The lazy y-max derivation at the top of `_draw_graph_segments`
(source lines 199–203): if `yMax` is the sentinel `-1` it is overwritten
with `max(this._entries.map(elt => elt.val))`. -/
def deriveYMax (g : GraphState) : GraphState :=
  if g.options.yMax = -1 then
    { g with options := { g.options with yMax := Utils.max (g.entries.map BarEntry.val) } }
  else g

/-- The x-axis tick label of slot `i` (source lines 248–264): `none` when the
`entry?.label !== ""` guard suppresses the `fillText` call, otherwise the
string passed to it.  The source computes
`entryFloatVal = (entry && entry.label !== undefined && Number.parseFloat(entry.label)) || NaN`;
because `0` (and `-0`) are falsy, a label parsing to zero collapses to `NaN`
here and is then rendered verbatim by the `isNaN` branch. -/
def xTickText (g : GraphState) (i : ℕ) : Option String :=
  let entry := g.entries[i]?
  if entry.bind BarEntry.label = some "" then none
  else
    let entryFloatVal : Option ℚ :=
      match entry with
      | none => none
      | some e =>
        match e.label with
        | none => none
        | some l =>
          match jsParseFloat l with
          | none => none
          | some q => if q = 0 then none else some q
    some (match entry with
      | none => Nat.repr i
      | some e =>
        match e.label with
        | none => Nat.repr i
        | some l =>
          match entryFloatVal with
          | none => l
          | some q =>
            if q.den = 1 then Int.repr q.num
            else toFixed q g.options.graphValuePrecision)

/-- Iteration `i` of the y-axis segmentation loop (source lines 209–228):
a dot at the axis and the tick's value label.  The label value is the
normalized pixel distance from the bottom scaled by `yMax`; its text offset
depends on the rendered string's length (`10 + length * 5.5`). -/
def ySegIter (g : GraphState) (H : ℚ) (i : ℕ) : List CanvasOp :=
  let y_height_px : ℚ := H / (g.options.graphSegments_Y : ℚ)
  let maxY_segment : ℚ := y_height_px * ((g.options.graphSegments_Y : ℚ) - 2)
  let Y : ℚ := H - y_height_px * (i : ℚ) - g.y_padding
  let yVal : ℚ := Utils.normalize ((H - g.y_padding - Y) * g.options.yMax) 0 maxY_segment
  let yValStr : String := numToLabel yVal g.options.graphValuePrecision
  let offset : ℚ := 10 + (yValStr.length : ℚ) * (11 / 2)
  [CanvasOp.arcOp g.x_padding Y 2,
   CanvasOp.fillTextOp yValStr (g.x_padding - offset) (Y + 3) g.options.ySegmentColor]

/-- Iteration `i` of the x-axis segmentation loop (source lines 232–265):
a dot on the baseline and, unless suppressed, the tick label. -/
def xSegIter (g : GraphState) (H W : ℚ) (i : ℕ) : List CanvasOp :=
  let X_SEGMENTS : ℚ := (W - g.x_padding) / (g.options.graphSegments_X : ℚ)
  let X : ℚ := g.x_padding + X_SEGMENTS * (i : ℚ)
  CanvasOp.arcOp X (H - g.y_padding) 2 ::
    (match xTickText g i with
     | some t => [CanvasOp.fillTextOp t X (H - g.y_offset + 12) g.options.xSegmentColor]
     | none => [])

/-- `for (let i = 0; i < n; i++) body(i)` with no break: the ops of
`f 0, …, f (n-1)` in order. -/
def loopOps (f : ℕ → List CanvasOp) : ℕ → List CanvasOp
  | 0 => []
  | n + 1 => loopOps f n ++ f n

/-- `_draw_graph_segments` (source lines 195–266): derives `yMax` if it is
the sentinel, then paints `graphSegments_Y - 1` y ticks and
`graphSegments_X - 1` x ticks.  The segment counts are destructured from
the options before the mutation (line 197); the tick bodies read the
mutated `yMax`.  Returns the ops and the post-derivation state. -/
def _draw_graph_segments (g : GraphState) (H W : ℚ) : List CanvasOp × GraphState :=
  let g' := deriveYMax g
  (loopOps (ySegIter g' H) (g.options.graphSegments_Y - 1)
     ++ loopOps (xSegIter g' H W) (g.options.graphSegments_X - 1),
   g')

/-- Iteration `i` of the bar loop (source lines 287–302): the bar rectangle
and then the value text, whose presence and content `valueLabel` controls
(`null` suppresses it, `undefined` shows the formatted `val`, any other
string is shown verbatim). -/
def barIter (g : GraphState) (H W : ℚ) (i : ℕ) : List CanvasOp :=
  let o := g.options
  let Y_SEGMENTS : ℚ := H / (o.graphSegments_Y : ℚ)
  let maxY_segment : ℚ := Y_SEGMENTS * ((o.graphSegments_Y : ℚ) - 2)
  let X_SEGMENTS : ℚ := (W - g.x_padding) / (o.graphSegments_X : ℚ)
  let entry := (g.entries[i]?).getD anyEntry
  let X : ℚ := g.x_padding + X_SEGMENTS * (i : ℚ)
  let Y : ℚ := Utils.normalize entry.val 0 o.yMax * maxY_segment
  CanvasOp.fillRect X (H - g.y_offset - Y) o.bar_width Y entry.color ::
    (match entry.valueLabel with
     | some none => []
     | none => [CanvasOp.fillTextOp (numToLabel entry.val o.graphValuePrecision)
                  (X + 5) (H - g.y_offset - Y - 10) entry.color]
     | some (some s) => [CanvasOp.fillTextOp s (X + 5) (H - g.y_offset - Y - 10) entry.color])

/-- `for (let i = 0; i < gsX; i++) { if (i >= entries.length) break; … }`
(source lines 283–303), as a loop on the remaining iteration count `fuel`
with current index `i`. -/
def barLoopAux (g : GraphState) (H W : ℚ) : ℕ → ℕ → List CanvasOp
  | 0, _ => []
  | fuel + 1, i =>
    if g.entries.length ≤ i then []
    else barIter g H W i ++ barLoopAux g H W fuel (i + 1)

/-- `_draw_bars` (source lines 271–306): the bar loop over
`graphSegments_X` slots, reading `yMax` as it currently stands. -/
def _draw_bars (g : GraphState) (H W : ℚ) : List CanvasOp :=
  barLoopAux g H W g.options.graphSegments_X 0

/-- The result of one `draw()` call: recorded ops and the updated state. -/
structure DrawResult where
  ops : List CanvasOp
  state : GraphState
deriving DecidableEq

/-- `draw()` (source lines 311–318): background, then bars, then the
outline, then the segment ticks — so `_draw_bars` runs before
`_draw_graph_segments` derives `yMax`. -/
def draw (g : GraphState) (H W : ℚ) : DrawResult :=
  let segs := _draw_graph_segments g H W
  { ops := CanvasOp.backgroundOp g.options.backgroundColor.r g.options.backgroundColor.g
        g.options.backgroundColor.b g.options.backgroundColor.a
      :: (_draw_bars g H W ++ _draw_graph_outline g H W ++ segs.1)
    state := segs.2 }

/-- A public mutating call on a chart: `add(entry)` or `draw()`. -/
inductive ChartOp where
  | addOp (entry : BarEntry)
  | drawOp (H W : ℚ)

/-- State transition of one public call. -/
def step (g : GraphState) : ChartOp → GraphState
  | ChartOp.addOp e => add g e
  | ChartOp.drawOp H W => (draw g H W).state

/-- A painted rectangle (the only `fillRect` calls are bars). -/
structure Rect where
  x : ℚ
  y : ℚ
  w : ℚ
  h : ℚ
  color : String
deriving DecidableEq

/-- The rectangles among a list of recorded ops. -/
def barRects (ops : List CanvasOp) : List Rect :=
  ops.filterMap fun op =>
    match op with
    | CanvasOp.fillRect x y w h c => some ⟨x, y, w, h, c⟩
    | _ => none

/-- The text payloads among a list of recorded ops. -/
def textsOf (ops : List CanvasOp) : List String :=
  ops.filterMap fun op =>
    match op with
    | CanvasOp.fillTextOp t _ _ _ => some t
    | CanvasOp.textWithFont t _ _ _ => some t
    | _ => none

/-- The bar rectangle of slot `i` computed against an explicit axis maximum
`q` (the formulas of `barIter` with `yMax` made a parameter). -/
def barRectAtY (g : GraphState) (H W q : ℚ) (i : ℕ) : Rect :=
  let o := g.options
  let Y_SEGMENTS : ℚ := H / (o.graphSegments_Y : ℚ)
  let maxY_segment : ℚ := Y_SEGMENTS * ((o.graphSegments_Y : ℚ) - 2)
  let X_SEGMENTS : ℚ := (W - g.x_padding) / (o.graphSegments_X : ℚ)
  let entry := (g.entries[i]?).getD anyEntry
  let X : ℚ := g.x_padding + X_SEGMENTS * (i : ℚ)
  let Y : ℚ := Utils.normalize entry.val 0 q * maxY_segment
  ⟨X, H - g.y_offset - Y, o.bar_width, Y, entry.color⟩

/-- The bar rectangle of slot `i` as `_draw_bars` paints it. -/
def barRectAt (g : GraphState) (H W : ℚ) (i : ℕ) : Rect :=
  barRectAtY g H W g.options.yMax i

lemma barRects_nil : barRects [] = [] := rfl

lemma barRects_append (l1 l2 : List CanvasOp) :
    barRects (l1 ++ l2) = barRects l1 ++ barRects l2 := by
  simp [barRects]

lemma barRects_barIter (g : GraphState) (H W : ℚ) (i : ℕ) :
    barRects (barIter g H W i) = [barRectAt g H W i] := by
  rcases h : ((g.entries[i]?).getD anyEntry).valueLabel with _ | (_ | s) <;>
    simp [barIter, barRectAt, barRectAtY, barRects, h]

lemma barRects_ySegIter (g : GraphState) (H : ℚ) (i : ℕ) :
    barRects (ySegIter g H i) = [] := rfl

lemma barRects_xSegIter (g : GraphState) (H W : ℚ) (i : ℕ) :
    barRects (xSegIter g H W i) = [] := by
  rcases h : xTickText g i with _ | t <;> simp [xSegIter, barRects, h]

lemma barRects_loopOps (f : ℕ → List CanvasOp) (hf : ∀ i, barRects (f i) = []) :
    ∀ n, barRects (loopOps f n) = []
  | 0 => rfl
  | n + 1 => by
    simp [loopOps, barRects_append, barRects_loopOps f hf n, hf n]

lemma barRects_outline (g : GraphState) (H W : ℚ) :
    barRects (_draw_graph_outline g H W) = [] := by
  unfold _draw_graph_outline
  split_ifs <;> rfl

lemma barRects_barLoopAux (g : GraphState) (H W : ℚ) :
    ∀ fuel i, barRects (barLoopAux g H W fuel i)
      = (List.range' i (min fuel (g.entries.length - i))).map (barRectAt g H W) := by
  intro fuel
  induction fuel with
  | zero => intro i; simp [barLoopAux, barRects_nil]
  | succ n ih =>
    intro i
    by_cases h : g.entries.length ≤ i
    · simp [barLoopAux, h, Nat.sub_eq_zero_of_le h, barRects_nil]
    · have hlt : i < g.entries.length := Nat.lt_of_not_le h
      have hsub : g.entries.length - i = (g.entries.length - (i + 1)) + 1 := by omega
      rw [show barLoopAux g H W (n + 1) i
            = barIter g H W i ++ barLoopAux g H W n (i + 1) by simp [barLoopAux, h]]
      rw [barRects_append, barRects_barIter, ih (i + 1), hsub, Nat.succ_min_succ]
      rfl

lemma barRects_draw (g : GraphState) (H W : ℚ) :
    barRects (draw g H W).ops
      = (List.range (min g.options.graphSegments_X g.entries.length)).map (barRectAt g H W) := by
  have hops : (draw g H W).ops
      = CanvasOp.backgroundOp g.options.backgroundColor.r g.options.backgroundColor.g
          g.options.backgroundColor.b g.options.backgroundColor.a
        :: (_draw_bars g H W ++ _draw_graph_outline g H W
            ++ (loopOps (ySegIter (deriveYMax g) H) (g.options.graphSegments_Y - 1)
                ++ loopOps (xSegIter (deriveYMax g) H W) (g.options.graphSegments_X - 1))) := rfl
  have hcons : ∀ (r gg b a : ℚ) (l : List CanvasOp),
      barRects (CanvasOp.backgroundOp r gg b a :: l) = barRects l := fun _ _ _ _ _ => rfl
  rw [hops, hcons, barRects_append, barRects_append, barRects_outline,
    barRects_append, barRects_loopOps _ (barRects_ySegIter (deriveYMax g) H),
    barRects_loopOps _ (barRects_xSegIter (deriveYMax g) H W)]
  rw [show _draw_bars g H W = barLoopAux g H W g.options.graphSegments_X 0 from rfl,
    barRects_barLoopAux, Nat.sub_zero, List.range_eq_range']
  simp

lemma foldl_add_options (es : List BarEntry) :
    ∀ g : GraphState, (List.foldl add g es).options = g.options := by
  induction es with
  | nil => intro g; rfl
  | cons e es ih => intro g; exact (ih (add g e)).trans rfl

lemma foldl_add_entries (es : List BarEntry) :
    ∀ g : GraphState, (List.foldl add g es).entries = g.entries ++ es := by
  induction es with
  | nil => intro g; simp [List.foldl]
  | cons e es ih =>
    intro g
    rw [List.foldl_cons, ih (add g e)]
    simp [add]

lemma deriveYMax_entries (g : GraphState) : (deriveYMax g).entries = g.entries := by
  unfold deriveYMax; split <;> rfl

lemma deriveYMax_of_unset (g : GraphState) (h : g.options.yMax = -1) :
    (deriveYMax g).options.yMax = Utils.max (g.entries.map BarEntry.val) := by
  simp [deriveYMax, h]

lemma deriveYMax_of_set (g : GraphState) (h : g.options.yMax ≠ -1) : deriveYMax g = g := by
  simp [deriveYMax, h]

lemma draw_state (g : GraphState) (H W : ℚ) : (draw g H W).state = deriveYMax g := rfl

/-- The fully-specified configuration corresponding to resolved options `g`:
every field supplied. -/
def GraphConfig.ofOptions (g : GraphOptions) : GraphConfig where
  width := some g.width
  height := some g.height
  backgroundColor := some g.backgroundColor
  titleText := some g.titleText
  xAxisText := some g.xAxisText
  yAxisText := some g.yAxisText
  yMax := some g.yMax
  yPadding := some g.yPadding
  xPadding := some g.xPadding
  bar_width := some g.bar_width
  bar_spacing := some g.bar_spacing
  graphSegments_Y := some g.graphSegments_Y
  graphSegments_X := some g.graphSegments_X
  titleColor := some g.titleColor
  xTextColor := some g.xTextColor
  yTextColor := some g.yTextColor
  yTextSize := some g.yTextSize
  xSegmentColor := some g.xSegmentColor
  ySegmentColor := some g.ySegmentColor
  graphValuePrecision := some g.graphValuePrecision
  verbose := some g.verbose

/-- C4: for every entry list and every `graphSegments_X`, `draw()` paints
exactly `min(graphSegments_X, entries.length)` bars, namely those of
`entries[0..min-1]` in order; entries at index `≥ graphSegments_X` are never
rendered and the loop stops at `entries.length`, so no bar is drawn for an
empty slot. -/
theorem draw_paints_min_bars (g : GraphState) (H W : ℚ) :
    barRects (draw g H W).ops
      = (List.range (min g.options.graphSegments_X g.entries.length)).map (barRectAt g H W) :=
  barRects_draw g H W

/-- C8: constructing a chart stores exactly the resolved configuration; a
fully-specified configuration round-trips with no defaulting; and every
absent field resolves to the documented default (shown for the no-config and
all-fields-absent cases, whose resolutions agree). -/
theorem config_resolution_roundtrip :
    (∀ c : Option GraphConfig, (mkGraph c).options = resolveOptions c)
    ∧ (∀ g : GraphOptions, resolveOptions (some (GraphConfig.ofOptions g)) = g)
    ∧ resolveOptions none =
        { width := 720, height := 480, backgroundColor := ⟨50, 50, 50, 1 / 2⟩,
          titleText := "title", xAxisText := "X-Axis", yAxisText := "Y-Axis",
          yMax := -1, yPadding := 0, xPadding := 0, bar_width := 10, bar_spacing := 5,
          graphSegments_Y := 10, graphSegments_X := 10,
          titleColor := "rgb(255,255,255)", xTextColor := "rgb(255,255,255)",
          yTextColor := "rgb(255,255,255)", yTextSize := 10,
          xSegmentColor := "rgb(255,255,255)", ySegmentColor := "rgb(255,255,255)",
          graphValuePrecision := 2, verbose := false }
    ∧ resolveOptions (some {}) = resolveOptions none :=
  ⟨fun _ => rfl, fun _ => rfl, rfl, rfl⟩

/-- The same chart state with only `bar_spacing` replaced: two charts whose
configurations differ at most in `bar_spacing`. -/
def setSpacing (g : GraphState) (b : ℚ) : GraphState :=
  { g with options := { g.options with bar_spacing := b } }

lemma outline_setSpacing (g : GraphState) (b H W : ℚ) :
    _draw_graph_outline (setSpacing g b) H W = _draw_graph_outline g H W := rfl

lemma xTickText_setSpacing (g : GraphState) (b : ℚ) (i : ℕ) :
    xTickText (setSpacing g b) i = xTickText g i := rfl

lemma barIter_setSpacing (g : GraphState) (b H W : ℚ) (i : ℕ) :
    barIter (setSpacing g b) H W i = barIter g H W i := rfl

lemma ySegIter_setSpacing (g : GraphState) (b H : ℚ) (i : ℕ) :
    ySegIter (setSpacing g b) H i = ySegIter g H i := rfl

lemma xSegIter_setSpacing (g : GraphState) (b H W : ℚ) (i : ℕ) :
    xSegIter (setSpacing g b) H W i = xSegIter g H W i := rfl

lemma loopOps_congr (f f' : ℕ → List CanvasOp) (h : ∀ i, f i = f' i) :
    ∀ n, loopOps f n = loopOps f' n
  | 0 => rfl
  | n + 1 => by rw [loopOps, loopOps, loopOps_congr f f' h n, h n]

lemma deriveYMax_setSpacing (g : GraphState) (b : ℚ) :
    deriveYMax (setSpacing g b) = setSpacing (deriveYMax g) b := by
  by_cases h : g.options.yMax = -1 <;>
    simp [deriveYMax, setSpacing, h]

lemma barLoopAux_setSpacing (g : GraphState) (b H W : ℚ) :
    ∀ fuel i, barLoopAux (setSpacing g b) H W fuel i = barLoopAux g H W fuel i := by
  intro fuel
  induction fuel with
  | zero => intro i; rfl
  | succ n ih =>
    intro i
    rw [barLoopAux, barLoopAux]
    by_cases h : g.entries.length ≤ i
    · simp [setSpacing, h]
    · have h2 : ¬((setSpacing g b).entries.length ≤ i) := h
      rw [if_neg h2, if_neg h, ih (i + 1), barIter_setSpacing]

lemma draw_ops (g : GraphState) (H W : ℚ) :
    (draw g H W).ops
      = CanvasOp.backgroundOp g.options.backgroundColor.r g.options.backgroundColor.g
          g.options.backgroundColor.b g.options.backgroundColor.a
        :: (_draw_bars g H W ++ _draw_graph_outline g H W
            ++ (loopOps (ySegIter (deriveYMax g) H) (g.options.graphSegments_Y - 1)
                ++ loopOps (xSegIter (deriveYMax g) H W) (g.options.graphSegments_X - 1))) := rfl

/-- C9: `bar_spacing` never influences any output: for two charts whose
states differ only in `bar_spacing` and the same entries, `draw()` records
identical ops (every pixel coordinate, bar rectangle and label), and the
resulting states again differ only in `bar_spacing`. -/
theorem bar_spacing_noninterference (g : GraphState) (b H W : ℚ) :
    (draw (setSpacing g b) H W).ops = (draw g H W).ops
    ∧ (draw (setSpacing g b) H W).state = setSpacing ((draw g H W).state) b := by
  constructor
  · rw [draw_ops, draw_ops,
      show _draw_bars (setSpacing g b) H W
          = barLoopAux (setSpacing g b) H W (setSpacing g b).options.graphSegments_X 0 from rfl,
      show (setSpacing g b).options.graphSegments_X = g.options.graphSegments_X from rfl,
      barLoopAux_setSpacing, outline_setSpacing, deriveYMax_setSpacing,
      show (setSpacing g b).options.graphSegments_Y = g.options.graphSegments_Y from rfl,
      loopOps_congr _ _ (ySegIter_setSpacing (deriveYMax g) b H),
      loopOps_congr _ _ (xSegIter_setSpacing (deriveYMax g) b H W)]
    rfl
  · rw [draw_state, draw_state, deriveYMax_setSpacing]

lemma yMax_frozen_step (g : GraphState) (h : g.options.yMax ≠ -1) (op : ChartOp) :
    (step g op).options.yMax = g.options.yMax := by
  cases op with
  | addOp e => rfl
  | drawOp H W =>
    show (draw g H W).state.options.yMax = g.options.yMax
    rw [draw_state, deriveYMax_of_set g h]

lemma yMax_frozen_foldl (ops : List ChartOp) :
    ∀ g : GraphState, g.options.yMax ≠ -1 →
      (List.foldl step g ops).options.yMax = g.options.yMax := by
  induction ops with
  | nil => intro g _; rfl
  | cons op ops ih =>
    intro g h
    have h1 := yMax_frozen_step g h op
    rw [List.foldl_cons, ih (step g op) (by rw [h1]; exact h), h1]

/-- C1 (amended): if `yMax` is the unset sentinel -1 when `draw()` runs, it
is set to the maximum `val` among the entries present in the store at that
moment; provided that derived maximum is not itself -1, it is frozen for the
lifetime of the chart — no later sequence of `add()`/`draw()` calls changes
it.  (When the derived maximum is exactly -1 the sentinel test fires again
on the next `draw()`, see the counterexample.) -/
theorem yMax_derived_then_frozen (g : GraphState) (H W : ℚ) (ops : List ChartOp)
    (h : g.options.yMax = -1) :
    (draw g H W).state.options.yMax = Utils.max (g.entries.map BarEntry.val)
    ∧ (Utils.max (g.entries.map BarEntry.val) ≠ -1 →
        (List.foldl step (draw g H W).state ops).options.yMax
          = Utils.max (g.entries.map BarEntry.val)) := by
  have h1 : (draw g H W).state.options.yMax = Utils.max (g.entries.map BarEntry.val) := by
    rw [draw_state]; exact deriveYMax_of_unset g h
  exact ⟨h1, fun hm => by
    rw [yMax_frozen_foldl ops _ (by rw [h1]; exact hm), h1]⟩

/-- C1 counterexample: an auto-derived `yMax` is not always frozen.  With a
single stored entry of `val = -1` the first `draw()` sets `yMax` to the
maximum `-1` — the sentinel itself — so a later `add` of `val = 5` followed
by `draw()` re-derives `yMax` to `5`: a later `add()`/`draw()` pair changed
the previously derived value, contradicting the claimed freeze. -/
theorem yMax_not_frozen_cex :
    (draw (add (mkGraph none) ⟨-1, none, "red", none⟩) 480 720).state.options.yMax = -1
    ∧ (draw (add (draw (add (mkGraph none) ⟨-1, none, "red", none⟩) 480 720).state
          ⟨5, none, "blue", none⟩) 480 720).state.options.yMax = 5 :=
  ⟨by decide, by decide⟩

/-- Concrete chart for the C1 witness: one entry with `val = 3`, `yMax`
left unset. -/
def gFrozen : GraphState := add (mkGraph none) ⟨3, none, "red", none⟩

/-- C1 witness: the amended theorem applied at a concrete chart (entry
`val = 3`, derived maximum `3 ≠ -1`, a later `add` and `draw`). -/
theorem yMax_derived_then_frozen_witness :
    (draw gFrozen 480 720).state.options.yMax = Utils.max (gFrozen.entries.map BarEntry.val)
    ∧ (Utils.max (gFrozen.entries.map BarEntry.val) ≠ -1 →
        (List.foldl step (draw gFrozen 480 720).state
            [ChartOp.addOp ⟨9, none, "blue", none⟩, ChartOp.drawOp 480 720]).options.yMax
          = Utils.max (gFrozen.entries.map BarEntry.val)) :=
  yMax_derived_then_frozen gFrozen 480 720
    [ChartOp.addOp ⟨9, none, "blue", none⟩, ChartOp.drawOp 480 720] (by decide)

lemma deriveYMax_graphSegments_X (g : GraphState) :
    (deriveYMax g).options.graphSegments_X = g.options.graphSegments_X := by
  unfold deriveYMax; split <;> rfl

/-- C2: for a chart constructed without an explicit `yMax`, the first
`draw()` paints every bar with a height computed from the unset sentinel
`-1` — `_draw_bars` reads `yMax` before `_draw_graph_segments` derives it —
while the same draw then derives `yMax`, so the second `draw()` paints the
bars against the derived maximum. -/
theorem first_draw_uses_sentinel (cfg : GraphConfig) (es : List BarEntry) (H W : ℚ)
    (hy : cfg.yMax = none) :
    barRects (draw (List.foldl add (mkGraph (some cfg)) es) H W).ops
      = (List.range (min (resolveOptions (some cfg)).graphSegments_X es.length)).map
          (barRectAtY (List.foldl add (mkGraph (some cfg)) es) H W (-1))
    ∧ (draw (List.foldl add (mkGraph (some cfg)) es) H W).state.options.yMax
        = Utils.max (es.map BarEntry.val)
    ∧ barRects (draw (draw (List.foldl add (mkGraph (some cfg)) es) H W).state H W).ops
        = (List.range (min (resolveOptions (some cfg)).graphSegments_X es.length)).map
            (barRectAtY (draw (List.foldl add (mkGraph (some cfg)) es) H W).state H W
              (Utils.max (es.map BarEntry.val))) := by
  set g := List.foldl add (mkGraph (some cfg)) es with hg
  have hopt : g.options = resolveOptions (some cfg) := foldl_add_options es (mkGraph (some cfg))
  have hyM : g.options.yMax = -1 := by
    rw [hopt]
    show ((some cfg).bind GraphConfig.yMax).getD (-1) = -1
    rw [Option.some_bind, hy]
    rfl
  have hent : g.entries = es := by
    rw [hg, foldl_add_entries es (mkGraph (some cfg))]
    rfl
  have hstate : (draw g H W).state.options.yMax = Utils.max (es.map BarEntry.val) := by
    rw [draw_state, deriveYMax_of_unset g hyM, hent]
  refine ⟨?_, hstate, ?_⟩
  · rw [barRects_draw, hopt, hent]
    have hfun : barRectAt g H W = barRectAtY g H W (-1) := by
      funext i
      show barRectAtY g H W g.options.yMax i = barRectAtY g H W (-1) i
      rw [hyM]
    rw [hfun]
  · rw [barRects_draw, draw_state, deriveYMax_graphSegments_X, deriveYMax_entries, hopt, hent]
    have hfun : barRectAt (deriveYMax g) H W
        = barRectAtY (deriveYMax g) H W (Utils.max (es.map BarEntry.val)) := by
      funext i
      show barRectAtY (deriveYMax g) H W (deriveYMax g).options.yMax i = _
      rw [deriveYMax_of_unset g hyM, hent]
    rw [hfun]

/-- Concrete entry list for the C2 witness. -/
def esC2 : List BarEntry := [⟨4, none, "red", some none⟩]

/-- Concrete chart for the C2 witness: default configuration (`yMax`
unset), one entry of `val = 4`. -/
def gC2 : GraphState := List.foldl add (mkGraph (some {})) esC2

/-- C2 witness: the theorem applied at a concrete chart. -/
theorem first_draw_uses_sentinel_witness :
    barRects (draw gC2 480 720).ops
      = (List.range (min (resolveOptions (some {})).graphSegments_X esC2.length)).map
          (barRectAtY gC2 480 720 (-1))
    ∧ (draw gC2 480 720).state.options.yMax = Utils.max (esC2.map BarEntry.val)
    ∧ barRects (draw (draw gC2 480 720).state 480 720).ops
        = (List.range (min (resolveOptions (some {})).graphSegments_X esC2.length)).map
            (barRectAtY (draw gC2 480 720).state 480 720 (Utils.max (esC2.map BarEntry.val))) :=
  first_draw_uses_sentinel {} esC2 480 720 rfl

/-- C3: with `yMax` explicitly set to `m`, the `j`-th drawn bar's pixel
height is `(val / m) * ((H / graphSegments_Y) * (graphSegments_Y - 2))`;
in particular bar height is linear in `val`: a drawn bar whose value is
twice another's is exactly twice as tall. -/
theorem bar_height_formula_linear (cfg : GraphConfig) (m : ℚ) (es : List BarEntry)
    (H W : ℚ) (j k : ℕ) (hm : cfg.yMax = some m)
    (hj : j < min (resolveOptions (some cfg)).graphSegments_X es.length)
    (hk : k < min (resolveOptions (some cfg)).graphSegments_X es.length) :
    (barRects (draw (List.foldl add (mkGraph (some cfg)) es) H W).ops)[j]?
        = some (barRectAtY (List.foldl add (mkGraph (some cfg)) es) H W m j)
    ∧ (barRectAtY (List.foldl add (mkGraph (some cfg)) es) H W m j).h
        = ((es[j]?).getD anyEntry).val / m
            * ((H / ((resolveOptions (some cfg)).graphSegments_Y : ℚ))
               * (((resolveOptions (some cfg)).graphSegments_Y : ℚ) - 2))
    ∧ (((es[k]?).getD anyEntry).val = 2 * ((es[j]?).getD anyEntry).val →
        (barRectAtY (List.foldl add (mkGraph (some cfg)) es) H W m k).h
          = 2 * (barRectAtY (List.foldl add (mkGraph (some cfg)) es) H W m j).h) := by
  set g := List.foldl add (mkGraph (some cfg)) es with hg
  have hopt : g.options = resolveOptions (some cfg) := foldl_add_options es (mkGraph (some cfg))
  have hyM : g.options.yMax = m := by
    rw [hopt]
    show ((some cfg).bind GraphConfig.yMax).getD (-1) = m
    rw [Option.some_bind, hm]
    rfl
  have hent : g.entries = es := by
    rw [hg, foldl_add_entries es (mkGraph (some cfg))]
    rfl
  refine ⟨?_, ?_, ?_⟩
  · rw [barRects_draw, hopt, hent, List.getElem?_map, List.getElem?_range hj]
    have : barRectAt g H W j = barRectAtY g H W m j := by
      show barRectAtY g H W g.options.yMax j = barRectAtY g H W m j
      rw [hyM]
    simp only [Option.map_some', this]
  · simp only [barRectAtY, hopt, hent, Utils.normalize, Rect.h]
    rw [sub_zero, sub_zero]
  · intro h2
    simp only [barRectAtY, hopt, hent, Utils.normalize, Rect.h, h2]
    ring

/-- Concrete configuration for the C3 witness: `yMax` set to 100. -/
def cfgC3 : GraphConfig := { yMax := some 100 }

/-- Concrete entries for the C3 witness: values 20 and 40. -/
def esC3 : List BarEntry := [⟨20, none, "red", some none⟩, ⟨40, none, "blue", some none⟩]

/-- Concrete chart for the C3 witness. -/
def gC3 : GraphState := List.foldl add (mkGraph (some cfgC3)) esC3

/-- C3 witness: the theorem applied at a concrete chart (`yMax = 100`,
entries 20 and 40, slots `j = 0`, `k = 1`). -/
theorem bar_height_formula_linear_witness :
    (barRects (draw gC3 480 720).ops)[0]? = some (barRectAtY gC3 480 720 100 0)
    ∧ (barRectAtY gC3 480 720 100 0).h
        = ((esC3[0]?).getD anyEntry).val / 100
            * ((480 / ((resolveOptions (some cfgC3)).graphSegments_Y : ℚ))
               * (((resolveOptions (some cfgC3)).graphSegments_Y : ℚ) - 2))
    ∧ (((esC3[1]?).getD anyEntry).val = 2 * ((esC3[0]?).getD anyEntry).val →
        (barRectAtY gC3 480 720 100 1).h = 2 * (barRectAtY gC3 480 720 100 0).h) :=
  bar_height_formula_linear cfgC3 100 esC3 480 720 0 1 rfl (by decide) (by decide)

/-- C7: for every drawn bar (slot `i` below the bar-loop cutoff), the text
ops of that bar's iteration are: none when `valueLabel` is null
(`some none`), the bar's own `val` formatted by the formatting rule when
`valueLabel` is absent (`none`), and the string itself, verbatim, when
`valueLabel` is any other string. -/
theorem valueLabel_controls_bar_text (g : GraphState) (H W : ℚ) (i : ℕ)
    (hi : i < min g.options.graphSegments_X g.entries.length) :
    (((g.entries[i]?).getD anyEntry).valueLabel = some none →
        textsOf (barIter g H W i) = [])
    ∧ (((g.entries[i]?).getD anyEntry).valueLabel = none →
        textsOf (barIter g H W i)
          = [numToLabel ((g.entries[i]?).getD anyEntry).val g.options.graphValuePrecision])
    ∧ (∀ s : String, ((g.entries[i]?).getD anyEntry).valueLabel = some (some s) →
        textsOf (barIter g H W i) = [s]) := by
  refine ⟨fun h => ?_, fun h => ?_, fun s h => ?_⟩ <;>
    simp [barIter, textsOf, h]

/-- Concrete chart for the C7 witness: three entries exercising the three
`valueLabel` cases (null, absent, explicit string). -/
def gC7 : GraphState :=
  List.foldl add (mkGraph none)
    [⟨1, none, "red", some none⟩, ⟨5 / 2, none, "green", none⟩, ⟨3, none, "blue", some (some "foo")⟩]

/-- C7 witness: the theorem applied at slots 0, 1 and 2 of a concrete
chart — the null `valueLabel` yields no text, the absent one yields the
formatted value, the string `"foo"` is shown verbatim. -/
theorem valueLabel_controls_bar_text_witness :
    textsOf (barIter gC7 480 720 0) = []
    ∧ textsOf (barIter gC7 480 720 1)
        = [numToLabel ((gC7.entries[1]?).getD anyEntry).val gC7.options.graphValuePrecision]
    ∧ textsOf (barIter gC7 480 720 2) = ["foo"] :=
  ⟨(valueLabel_controls_bar_text gC7 480 720 0 (by decide)).1 (by decide),
   (valueLabel_controls_bar_text gC7 480 720 1 (by decide)).2.1 (by decide),
   (valueLabel_controls_bar_text gC7 480 720 2 (by decide)).2.2 "foo" (by decide)⟩

/-- C5 (amended): the x-axis tick-label loop iterates slots
`[0, graphSegments_X - 1)` — one slot fewer than the bar loop's
`[0, graphSegments_X)` — as the decomposition of `draw()`'s ops shows.
Within that range, a slot with no entry gets its numeric index, rendered as
a string, for its label, and a slot whose entry has a defined, non-empty,
non-numeric label shows that label.  With `graphSegments_X = 5` and 3
entries, slots 0–2 use the entries' labels, slot 3 shows "3", and slot 4
gets no tick at all. -/
theorem xtick_slots (g : GraphState) (H W : ℚ) :
    (draw g H W).ops
      = CanvasOp.backgroundOp g.options.backgroundColor.r g.options.backgroundColor.g
          g.options.backgroundColor.b g.options.backgroundColor.a
        :: (_draw_bars g H W ++ _draw_graph_outline g H W
            ++ (loopOps (ySegIter (deriveYMax g) H) (g.options.graphSegments_Y - 1)
                ++ loopOps (xSegIter (deriveYMax g) H W) (g.options.graphSegments_X - 1)))
    ∧ (∀ i, g.entries[i]? = none → xTickText (deriveYMax g) i = some (Nat.repr i))
    ∧ (∀ i e l, g.entries[i]? = some e → e.label = some l → l ≠ "" →
        jsParseFloat l = none → xTickText (deriveYMax g) i = some l) := by
  refine ⟨draw_ops g H W, fun i h => ?_, fun i e l he hl hne hp => ?_⟩
  · simp [xTickText, deriveYMax_entries, h]
  · simp [xTickText, deriveYMax_entries, he, hl, hne, hp]

/-- Concrete chart for the C5 counterexample and witness:
`graphSegments_X = 5`, `graphSegments_Y = 2`, `yMax = 800`, three entries
labelled "a", "b", "c". -/
def gC5 : GraphState :=
  List.foldl add
    (mkGraph (some { yMax := some 800, graphSegments_Y := some 2, graphSegments_X := some 5 }))
    [⟨1, some "a", "red", none⟩, ⟨2, some "b", "green", none⟩, ⟨3, some "c", "blue", none⟩]

/-- C5 counterexample: with `graphSegments_X = 5` and 3 entries, the claim
says slot 4 shows the label "4"; but the tick loop stops at slot 3, and no
text op of the entire rendering carries "4" (while slot 3's "3" is
present). -/
theorem xtick_slot4_missing_cex :
    ("4" ∉ textsOf (draw gC5 480 720).ops)
    ∧ ("3" ∈ textsOf (draw gC5 480 720).ops)
    ∧ xTickText (deriveYMax gC5) 3 = some "3" :=
  ⟨by decide, by decide, by decide⟩

/-- C5 witness: the amended theorem applied at the concrete chart — slot 3
(no entry) falls back to its numeric index, slot 0 shows the entry label
"a". -/
theorem xtick_slots_witness :
    xTickText (deriveYMax gC5) 3 = some (Nat.repr 3)
    ∧ xTickText (deriveYMax gC5) 0 = some "a" :=
  ⟨(xtick_slots gC5 480 720).2.1 3 (by decide),
   (xtick_slots gC5 480 720).2.2 0 ⟨1, some "a", "red", none⟩ "a" (by decide) rfl
     (by decide) (by decide)⟩

/-- Concrete chart for the C6 failing input: an entry labelled "0.0". -/
def gC6 : GraphState := add (mkGraph none) ⟨1, some "0.0", "red", none⟩

/-- C6: evaluation of the code at the failing input.  The entry label "0.0"
parses to the number 0, whose fractional part is zero, so the claimed
uniform rule demands the integer rendering "0" (`numToLabel 0 2 = "0"`);
the code instead renders the label verbatim as "0.0", because the parsed 0
is falsy in `(entry && entry.label !== undefined && parseFloat(...)) || NaN`
and the label is then treated as non-numeric. -/
theorem format_rule_fails_at_zero_string :
    jsParseFloat "0.0" = some 0
    ∧ numToLabel 0 2 = "0"
    ∧ xTickText (deriveYMax gC6) 0 = some "0.0"
    ∧ ("0.0" : String) ≠ "0" :=
  ⟨by decide, by decide, by decide, by decide⟩

/-- C10: for every painted x-axis slot whose entry has a defined, non-empty
label that `parseFloat` parses to the number 0, the rendered tick label is
the original string verbatim (not the formatted parsed number): the parsed
0 is falsy in the guard deciding whether the label counts as numeric. -/
theorem zero_parsing_label_renders_verbatim (g : GraphState) (H W : ℚ) (i : ℕ)
    (e : BarEntry) (l : String) (hi : i < g.options.graphSegments_X - 1)
    (he : g.entries[i]? = some e) (hl : e.label = some l) (hne : l ≠ "")
    (hz : jsParseFloat l = some 0) :
    xTickText g i = some l
    ∧ xSegIter g H W i
        = [CanvasOp.arcOp
             (g.x_padding + (W - g.x_padding) / (g.options.graphSegments_X : ℚ) * (i : ℚ))
             (H - g.y_padding) 2,
           CanvasOp.fillTextOp l
             (g.x_padding + (W - g.x_padding) / (g.options.graphSegments_X : ℚ) * (i : ℚ))
             (H - g.y_offset + 12) g.options.xSegmentColor] := by
  have h1 : xTickText g i = some l := by
    simp [xTickText, he, hl, hne, hz]
  exact ⟨h1, by simp [xSegIter, h1]⟩

/-- Concrete chart for the C10 witness: an entry labelled "0.00" under the
default configuration. -/
def gC10 : GraphState := add (mkGraph none) ⟨2, some "0.00", "red", none⟩

/-- C10 witness: the theorem applied at the concrete chart — the label
"0.00" parses to 0 and is rendered verbatim. -/
theorem zero_parsing_label_renders_verbatim_witness :
    xTickText gC10 0 = some "0.00" :=
  (zero_parsing_label_renders_verbatim gC10 480 720 0 ⟨2, some "0.00", "red", none⟩ "0.00"
    (by decide) (by decide) rfl (by decide) (by decide)).1

end DenoChart
